import Mathlib

/-!
Shallow embedding of `src/pangea-gpt.py`: a chat client that redacts user
input, sends it to a completion service, redacts the reply, and annotates
the reply by checking detected URL spans against a domain-reputation
service.  Text is modelled as `List Char` (Python character offsets),
external services as function parameters (adapters), and the JSON payload
of the output-redaction call as a small inductive `J`.
-/

/-- Text, as a list of characters; Python string slicing clamps out-of-range
indices exactly as `List.take` / `List.drop` do for `Nat` indices. -/
abbrev Str := List Char

/-- Python slice `t[s:e]` for non-negative indices. -/
def str_slice (t : Str) (s e : Nat) : Str :=
  (t.drop s).take (e - s)

/-- A chat message: `{"role": ..., "content": ...}` (class `ChatMessage`). -/
structure ChatMessage where
  role : String
  content : Str
deriving DecidableEq, Repr

/-- `Messages = t.List[t.Tuple[ChatMessage, str]]`: each entry pairs the raw
message with its redacted/annotated display text. -/
abbrev Conversation := List (ChatMessage × Str)

/-- One recognizer result from the redaction service's detection report:
offsets into the submitted text, the field-type tag, and whether the
service redacted the span (`result.redacted` in the source, called
`already_redacted` in the data model). `end` is a Lean keyword, hence
`end_`. -/
structure RecognizerResult where
  field_type : String
  start : Nat
  end_ : Nat
  redacted : Bool
deriving DecidableEq, Repr

/-- JSON values, deep enough to model the raw redaction response that the
code manipulates (`payload.pop("summary")`, `payload["result"].pop("redacted_text")`).
Objects are ordered key-value lists, as Python dicts preserve insertion
order when serialized. -/
inductive J where
  | null : J
  | bool : Bool → J
  | num : Int → J
  | str : String → J
  | arr : List J → J
  | obj : List (String × J) → J

/-- A JSON object payload (a Python dict at top level). -/
abbrev Payload := List (String × J)

/-- `dict.pop(k)`: remove the entry with key `k` (Python dict keys are
unique, so filtering all matches is the same as removing the one entry). -/
def popKey (fields : Payload) (k : String) : Payload :=
  fields.filter (fun p => p.1 ≠ k)

/-- `payload["result"].pop("redacted_text")`: remove `redacted_text` from a
JSON object value; non-object values are untouched (the source would raise
there, outside the modelled path). -/
def popRedactedText : J → J
  | .obj fs => .obj (fs.filter (fun p => p.1 ≠ "redacted_text"))
  | v => v

/-- `replace_word` (line 199): splice `replacement` over `text[start:end]`. -/
def replace_word (text : Str) (replacement : Str) (start : Nat) (end_ : Nat) : Str :=
  let init := text.take start
  let tail := text.drop end_
  init ++ replacement ++ tail

/-- The scheme stripping in the URL branch (lines 185-188):
`url[7:]` after `startswith("http://")`, else `url[8:]` after
`startswith("https://")`. -/
def stripScheme (url : Str) : Str :=
  if "http://".toList.isPrefixOf url then url.drop 7
  else if "https://".toList.isPrefixOf url then url.drop 8
  else url

/-- One iteration of the annotation loop (lines 181-194): `content` is the
original assistant text the report's offsets refer to, `acc` the
progressively mutated `redacted_text`, `rep` the reputation adapter
returning a verdict string for a domain. -/
def annotateSpan (rep : Str → String) (content : Str) (acc : Str) (r : RecognizerResult) : Str :=
  if r.redacted then
    if r.field_type = "URL" then
      let url := stripScheme (str_slice content r.start r.end_)
      if rep url = "malicious" then
        acc.take r.start ++ "<MALICIOUS_URL>".toList ++ acc.drop r.end_
      else acc
    else
      replace_word acc ("<" ++ r.field_type ++ ">").toList r.start r.end_
  else acc

/-- The whole annotation pass: `redacted_text = content`, then the loop over
`report.recognizer_results` in order. -/
def annotate (rep : Str → String) (content : Str) (results : List RecognizerResult) : Str :=
  results.foldl (annotateSpan rep content) content

/-- The redaction adapter's response for the assistant message: the raw JSON
payload and the detection report's recognizer results. -/
structure RedactOut where
  raw_response : Payload
  recognizer_results : List RecognizerResult

/-- The request message list built on line 166:
`[x[0] for x in previous_messages] + [{"role": "user", "content": message}]`. -/
def build_request (previous_messages : Conversation) (message : Str) : List ChatMessage :=
  previous_messages.map Prod.fst ++ [⟨"user", message⟩]

/-- `send_chatgpt_message` (lines 165-196), with the three network services
abstracted as adapters: `completion` for the chat-completion call, `redact`
for the output-redaction call (taking the rule list), `rep` for the
domain-reputation call.  Returns the assistant message, the annotated text,
and the audit payload (the raw response after the two `pop`s). -/
def send_chatgpt_message (completion : List ChatMessage → ChatMessage)
    (redact : List String → Str → RedactOut) (rep : Str → String)
    (redact_rules : List String) (message : Str) (previous_messages : Conversation) :
    ChatMessage × Str × Payload :=
  let chat_message := completion (build_request previous_messages message)
  let content := chat_message.content
  let redact_response := redact redact_rules content
  let payload := popKey redact_response.raw_response "summary"
  let payload := payload.map (fun p => if p.1 = "result" then (p.1, popRedactedText p.2) else p)
  let redacted_text := annotate rep content redact_response.recognizer_results
  (⟨"assistant", content⟩, redacted_text, payload)

/-- The edit (start, end, replacement) that one loop iteration applies, if
any: `<MALICIOUS_URL>` for a redacted URL span with a malicious verdict,
`<FIELD_TYPE>` for a redacted non-URL span, nothing otherwise.  Derived
from the same branches as `annotateSpan`. -/
def appliedEdit (rep : Str → String) (content : Str) (r : RecognizerResult) :
    Option (Nat × Nat × Str) :=
  if r.redacted then
    if r.field_type = "URL" then
      if rep (stripScheme (str_slice content r.start r.end_)) = "malicious" then
        some (r.start, r.end_, "<MALICIOUS_URL>".toList)
      else none
    else some (r.start, r.end_, ("<" ++ r.field_type ++ ">").toList)
  else none

/-- All edits the annotation pass applies while walking the report. -/
def appliedEdits (rep : Str → String) (content : Str) (results : List RecognizerResult) :
    List (Nat × Nat × Str) :=
  results.filterMap (appliedEdit rep content)

/-- Apply one (start, end, replacement) edit to the mutated accumulator. -/
def applyEdit (acc : Str) (e : Nat × Nat × Str) : Str :=
  acc.take e.1 ++ e.2.2 ++ acc.drop e.2.1

/-- The fixed fallback conversation location `/tmp/pangea_gpt_previous.json`. -/
def default_file : String := "/tmp/pangea_gpt_previous.json"

/-- `get_previous_text` (lines 151-162).  The filesystem is an adapter
`fs : path → Option contents` (`None` = file does not exist) and
`deserialize` abstracts `json.load`; the function takes no network adapter,
so no network activity can occur in it.  A missing explicit path raises
`ValueError` (modelled as `Except.error`). -/
def get_previous_text (fs : String → Option String)
    (deserialize : String → Conversation) (file : Option String) :
    Except String Conversation :=
  match file with
  | some f =>
    match fs f with
    | none => .error ("File " ++ f ++ " does not exist")
    | some contents => .ok (deserialize contents)
  | none =>
    match fs default_file with
    | some contents => .ok (deserialize contents)
    | none => .ok []

/-- The state of the terminal loop `run_chat`: the conversation list and the
`edited` flag read by the signal handler. -/
structure ChatState where
  previous : Conversation
  edited : Bool
deriving Repr

/-- The state as `run_chat` sets it up before the loop: loaded conversation,
`edited = False` (lines 91-97). -/
def run_chat_init (previous : Conversation) : ChatState :=
  ⟨previous, false⟩

/-- One completed iteration of the `while True` loop (lines 110-124): redact
the user input, run `send_chatgpt_message` on the classified text, set
`edited = True` and append the user and assistant entries.  `redact_user`
is the input-redaction adapter returning (raw response, redacted text). -/
def run_chat_turn (redact_user : List String → Str → Payload × Str)
    (completion : List ChatMessage → ChatMessage)
    (redact : List String → Str → RedactOut) (rep : Str → String)
    (user_input_redact_rules gpt_redact_rules : List String)
    (st : ChatState) (user_content : Str) : ChatState :=
  let classified := (redact_user user_input_redact_rules user_content).2
  let r := send_chatgpt_message completion redact rep gpt_redact_rules classified st.previous
  { previous := st.previous ++ [(⟨"user", classified⟩, classified), (r.1, r.2.1)],
    edited := true }

/-- `term_handler` (lines 98-104) as a function from the loop state to the
write it performs before exiting: `Some (path, snapshot)` when `edited`
(the full conversation, overwriting the explicit path or the fallback), or
`None` (exit without writing). -/
def term_handler (previous_conversation : Option String) (st : ChatState) :
    Option (String × Conversation) :=
  if st.edited then
    some (previous_conversation.getD default_file, st.previous)
  else none

/-- The JSON body returned by the `/chat` HTTP handler (lines 66-72). -/
structure ChatResult where
  previous : Conversation
  chat_gpt_message : ChatMessage
  chat_gpt_redacted : Str
  user_redacted : Str
  raw_redact_user_text : Payload
  raw_redact_gpt_text : Payload

/-- The `/chat` HTTP handler `chat` (lines 53-72): redact the user message,
run `send_chatgpt_message` on the redacted text, append the user and
assistant entries to `previous` and return the response payload. -/
def chat (redact_user : List String → Str → Payload × Str)
    (completion : List ChatMessage → ChatMessage)
    (redact : List String → Str → RedactOut) (rep : Str → String)
    (user_input_redact_rules gpt_redact_rules : List String)
    (previous : Conversation) (user_message : Str) : ChatResult :=
  let user_call := redact_user user_input_redact_rules user_message
  let user_redacted := user_call.2
  let r := send_chatgpt_message completion redact rep gpt_redact_rules user_redacted previous
  { previous := previous ++ [(⟨"user", user_redacted⟩, user_redacted), (r.1, r.2.1)],
    chat_gpt_message := r.1,
    chat_gpt_redacted := r.2.1,
    user_redacted := user_redacted,
    raw_redact_user_text := user_call.1,
    raw_redact_gpt_text := r.2.2 }

/-- The audit-report transform as the amended claim C4 words it: the raw
response of the output-redaction call with the top-level `summary` entry
removed and `redacted_text` removed from the `result` object. -/
def audit_report (raw : Payload) : Payload :=
  (popKey raw "summary").map (fun p => if p.1 = "result" then (p.1, popRedactedText p.2) else p)

/-! ## Helper lemmas -/

/-- One loop iteration applies exactly the edit that `appliedEdit` reports,
or leaves the accumulator untouched. -/
lemma annotateSpan_eq_appliedEdit (rep : Str → String) (content acc : Str)
    (r : RecognizerResult) :
    annotateSpan rep content acc r = (appliedEdit rep content r).elim acc (applyEdit acc) := by
  unfold annotateSpan appliedEdit
  cases hr : r.redacted
  · simp
  · by_cases hf : r.field_type = "URL"
    · by_cases hm : rep (stripScheme (str_slice content r.start r.end_)) = "malicious"
      · simp [hf, hm, applyEdit]
      · simp [hf, hm]
    · simp [hf, applyEdit, replace_word]

/-- The whole annotation pass is the left fold of the applied edits over the
progressively mutated text. -/
lemma annotate_eq_foldl_appliedEdits (rep : Str → String) (content : Str)
    (results : List RecognizerResult) :
    annotate rep content results = (appliedEdits rep content results).foldl applyEdit content := by
  suffices h : ∀ acc, results.foldl (annotateSpan rep content) acc
      = (results.filterMap (appliedEdit rep content)).foldl applyEdit acc from h content
  induction results with
  | nil => intro acc; rfl
  | cons r rs ih =>
    intro acc
    rw [List.foldl_cons, List.filterMap_cons, annotateSpan_eq_appliedEdit]
    cases he : appliedEdit rep content r
    · simpa using ih acc
    · simpa using ih (applyEdit acc _)

/-! ## Claims -/

/-- Claim C1 (counterexample): a URL span whose `already_redacted` flag is
false is left untouched even when the domain is malicious, so the
annotation pass does not treat URL spans independently of that flag: the
unchanged text differs from the `<MALICIOUS_URL>`-spliced text the claim
demands. -/
theorem C1_counterexample_flag_gates_url_branch :
    annotate (fun _ => "malicious") "http://evil.example".toList [⟨"URL", 0, 19, false⟩]
        = "http://evil.example".toList ∧
    "http://evil.example".toList ≠
      (("http://evil.example".toList : Str).take 0 ++ "<MALICIOUS_URL>".toList ++
        ("http://evil.example".toList : Str).drop 19) :=
  ⟨rfl, by decide⟩

/-- Claim C1 (amended): for a span with `field_type = URL` **and**
`already_redacted = true`, the iteration replaces `[start, end)` by
`<MALICIOUS_URL>` exactly when the reputation verdict on the
scheme-stripped `content[start:end]` is `malicious`, leaving the text
unchanged otherwise, and the verdict is consulted on exactly that stripped
string; a URL span with `already_redacted = false` is left untouched and
no reputation verdict influences the result. -/
theorem C1_amended_url_branch (rep rep' : Str → String) (content acc : Str)
    (r : RecognizerResult) (hf : r.field_type = "URL") :
    (r.redacted = true →
      annotateSpan rep content acc r =
        (if rep (stripScheme (str_slice content r.start r.end_)) = "malicious" then
          acc.take r.start ++ "<MALICIOUS_URL>".toList ++ acc.drop r.end_
        else acc)) ∧
    (r.redacted = true →
      rep (stripScheme (str_slice content r.start r.end_)) =
        rep' (stripScheme (str_slice content r.start r.end_)) →
      annotateSpan rep content acc r = annotateSpan rep' content acc r) ∧
    (r.redacted = false →
      annotateSpan rep content acc r = acc ∧
      annotateSpan rep content acc r = annotateSpan rep' content acc r) := by
  refine ⟨fun hr => ?_, fun hr hrep => ?_, fun hr => ?_⟩
  · simp [annotateSpan, hr, hf]
  · simp [annotateSpan, hr, hf, hrep]
  · simp [annotateSpan, hr]

/-- Claim C1 witness: a concrete redacted URL span with a malicious verdict
is replaced by the placeholder. -/
theorem C1_amended_url_branch_witness :
    annotateSpan (fun _ => "malicious") "http://x.co".toList "http://x.co".toList
        ⟨"URL", 0, 11, true⟩ = "<MALICIOUS_URL>".toList := by
  have h := (C1_amended_url_branch (fun _ => "malicious") (fun _ => "benign")
      "http://x.co".toList "http://x.co".toList ⟨"URL", 0, 11, true⟩ rfl).1 rfl
  rw [h]; decide

/-- Claim C5 (counterexample): a report with exactly one URL span whose
domain is malicious but whose `already_redacted` flag is false leaves the
annotated reply unchanged, not `<MALICIOUS_URL>`-spliced as the claim
states. -/
theorem C5_counterexample_unredacted_url_not_masked :
    annotate (fun _ => "malicious") "http://bad.example".toList [⟨"URL", 0, 18, false⟩]
        = "http://bad.example".toList ∧
    "http://bad.example".toList ≠
      (("http://bad.example".toList : Str).take 0 ++ "<MALICIOUS_URL>".toList ++
        ("http://bad.example".toList : Str).drop 18) :=
  ⟨rfl, by decide⟩

/-- Claim C5 (amended): for a report with exactly one URL span with
`already_redacted = true` whose domain is classified malicious, the
annotated reply is the original content with exactly `[start, end)`
replaced by `<MALICIOUS_URL>` and every character outside the span
unchanged. -/
theorem C5_amended_malicious_url_masked (rep : Str → String) (content : Str)
    (r : RecognizerResult) (hf : r.field_type = "URL") (hr : r.redacted = true)
    (hs : r.start ≤ r.end_) (he : r.end_ ≤ content.length)
    (hm : rep (stripScheme (str_slice content r.start r.end_)) = "malicious") :
    annotate rep content [r] =
      content.take r.start ++ "<MALICIOUS_URL>".toList ++ content.drop r.end_ := by
  simp [annotate, annotateSpan, hr, hf, hm]

/-- Claim C5 witness: one concrete malicious redacted URL span. -/
theorem C5_amended_malicious_url_masked_witness :
    annotate (fun _ => "malicious") "go http://evil.co now".toList [⟨"URL", 3, 17, true⟩]
        = "go <MALICIOUS_URL> now".toList := by
  have h := C5_amended_malicious_url_masked (fun _ => "malicious")
      "go http://evil.co now".toList ⟨"URL", 3, 17, true⟩ rfl rfl
      (by decide) (by decide) rfl
  rw [h]; decide

/-- Claim C6: for a report with exactly one non-URL span with
`already_redacted = true`, the annotated reply is the original content
with the span replaced by the `<FIELD_TYPE>` placeholder built from the
span's tag, all other characters unchanged. -/
theorem C6_nonurl_redacted_tagged (rep : Str → String) (content : Str)
    (r : RecognizerResult) (hf : r.field_type ≠ "URL") (hr : r.redacted = true)
    (hs : r.start ≤ r.end_) (he : r.end_ ≤ content.length) :
    annotate rep content [r] =
      content.take r.start ++ ("<" ++ r.field_type ++ ">").toList ++ content.drop r.end_ := by
  simp [annotate, annotateSpan, replace_word, hr, hf]

/-- Claim C6 witness: a concrete already-redacted EMAIL_ADDRESS span. -/
theorem C6_nonurl_redacted_tagged_witness :
    annotate (fun _ => "benign") "mail a@b.co end".toList [⟨"EMAIL_ADDRESS", 5, 11, true⟩]
        = "mail <EMAIL_ADDRESS> end".toList := by
  have h := C6_nonurl_redacted_tagged (fun _ => "benign") "mail a@b.co end".toList
      ⟨"EMAIL_ADDRESS", 5, 11, true⟩ (by decide) rfl (by decide) (by decide)
  rw [h]; decide

/-- Claim C7: a report with zero spans leaves the annotated reply identical
to the raw reply content. -/
theorem C7_empty_report_identity (rep : Str → String) (content : Str) :
    annotate rep content [] = content := rfl

/-- Claim C2 (counterexample): the annotation pass replaces a 6-character
already-redacted EMAIL_ADDRESS span by the 15-character placeholder
`<EMAIL_ADDRESS>`, so a replacement can be strictly longer than the span
it replaces. -/
theorem C2_counterexample_placeholder_longer_than_span :
    appliedEdits (fun _ => "benign") "a@b.co".toList [⟨"EMAIL_ADDRESS", 0, 6, true⟩]
        = [(0, 6, "<EMAIL_ADDRESS>".toList)] ∧
    annotate (fun _ => "benign") "a@b.co".toList [⟨"EMAIL_ADDRESS", 0, 6, true⟩]
        = "<EMAIL_ADDRESS>".toList ∧
    ¬ (("<EMAIL_ADDRESS>".toList : Str).length ≤ 6 - 0) :=
  ⟨by decide, by decide, by decide⟩

/-- Claim C2 (amended): every replacement the annotation pass applies while
walking the report is a fixed placeholder — `<MALICIOUS_URL>` or the
`<FIELD_TYPE>` tag of its span — whose length does not depend on the span,
so the bound `length(replacement) ≤ end - start` holds only for spans at
least as long as their placeholder and can fail for shorter spans; the
pass itself is the left fold of those edits over the progressively mutated
text. -/
theorem C2_amended_fixed_placeholders (rep : Str → String) (content : Str)
    (results : List RecognizerResult) (s e : Nat) (w : Str)
    (h : (s, e, w) ∈ appliedEdits rep content results) :
    annotate rep content results = (appliedEdits rep content results).foldl applyEdit content ∧
    ∃ r ∈ results, s = r.start ∧ e = r.end_ ∧
      (w = "<MALICIOUS_URL>".toList ∨ w = ("<" ++ r.field_type ++ ">").toList) := by
  refine ⟨annotate_eq_foldl_appliedEdits rep content results, ?_⟩
  rcases List.mem_filterMap.mp h with ⟨r, hr, he⟩
  refine ⟨r, hr, ?_⟩
  unfold appliedEdit at he
  split at he
  · split at he
    · split at he
      · simp only [Option.some.injEq, Prod.mk.injEq] at he
        obtain ⟨h1, h2, h3⟩ := he
        exact ⟨h1.symm, h2.symm, Or.inl h3.symm⟩
      · exact absurd he (by simp)
    · simp only [Option.some.injEq, Prod.mk.injEq] at he
      obtain ⟨h1, h2, h3⟩ := he
      exact ⟨h1.symm, h2.symm, Or.inr h3.symm⟩
  · exact absurd he (by simp)

/-- Claim C2 witness: the placeholder edit for a concrete redacted
EMAIL_ADDRESS span comes from that span with the `<FIELD_TYPE>` tag. -/
theorem C2_amended_fixed_placeholders_witness :
    ∃ r ∈ [(⟨"EMAIL_ADDRESS", 5, 11, true⟩ : RecognizerResult)], 5 = r.start ∧ 11 = r.end_ ∧
      (("<EMAIL_ADDRESS>".toList : Str) = "<MALICIOUS_URL>".toList ∨
        ("<EMAIL_ADDRESS>".toList : Str) = ("<" ++ r.field_type ++ ">").toList) :=
  (C2_amended_fixed_placeholders (fun _ => "benign") "mail a@b.co end".toList
    [⟨"EMAIL_ADDRESS", 5, 11, true⟩] 5 11 "<EMAIL_ADDRESS>".toList (by decide)).2

/-- Claim C4 (counterexample): the payload returned for audit display is not
the unmodified raw response — for a raw response carrying a `summary`
entry and a `redacted_text` entry inside `result`, the returned payload
differs from it. -/
theorem C4_counterexample_report_not_unmodified :
    (send_chatgpt_message (fun _ => ⟨"assistant", "hi".toList⟩)
        (fun _ _ => ⟨[("summary", J.str "s"),
                      ("result", J.obj [("redacted_text", J.str "hi"), ("count", J.num 0)])], []⟩)
        (fun _ => "benign") [] "q".toList []).2.2
      ≠ [("summary", J.str "s"),
         ("result", J.obj [("redacted_text", J.str "hi"), ("count", J.num 0)])] := by
  intro h
  have e1 : (send_chatgpt_message (fun _ => ⟨"assistant", "hi".toList⟩)
      (fun _ _ => ⟨[("summary", J.str "s"),
                    ("result", J.obj [("redacted_text", J.str "hi"), ("count", J.num 0)])], []⟩)
      (fun _ => "benign") [] "q".toList []).2.2.length = 1 := rfl
  have e2 := congrArg List.length h
  rw [e1] at e2
  simp at e2

/-- Claim C4 (amended): the payload `send_chatgpt_message` returns for audit
display equals the redaction service's raw response for the assistant
message with the top-level `summary` key removed and `redacted_text`
removed from the `result` object — not the unmodified raw response. -/
theorem C4_amended_report_is_popped_raw (completion : List ChatMessage → ChatMessage)
    (redact : List String → Str → RedactOut) (rep : Str → String)
    (redact_rules : List String) (message : Str) (previous : Conversation) :
    (send_chatgpt_message completion redact rep redact_rules message previous).2.2 =
      audit_report (redact redact_rules
        (completion (build_request previous message)).content).raw_response := rfl

/-- Claim C8: conversation load fails with a not-found error when an
explicit path is given and missing (the load function consults no network
adapter at all), returns the empty conversation when no path is given and
the fallback is absent, and returns the deserialized contents of whichever
chosen file exists. -/
theorem C8_get_previous_text_cases (fs : String → Option String)
    (deserialize : String → Conversation) :
    (∀ f, fs f = none →
      get_previous_text fs deserialize (some f)
        = .error ("File " ++ f ++ " does not exist")) ∧
    (∀ f c, fs f = some c →
      get_previous_text fs deserialize (some f) = .ok (deserialize c)) ∧
    (fs default_file = none → get_previous_text fs deserialize none = .ok []) ∧
    (∀ c, fs default_file = some c →
      get_previous_text fs deserialize none = .ok (deserialize c)) := by
  refine ⟨fun f h => ?_, fun f c h => ?_, fun h => ?_, fun c h => ?_⟩ <;>
    simp [get_previous_text, h]

/-- Claim C8 witness: an empty filesystem makes an explicit path fail and
the fallback produce the empty conversation; a populated fallback loads. -/
theorem C8_get_previous_text_cases_witness :
    get_previous_text (fun _ => none) (fun _ => []) (some "conv.json")
        = .error "File conv.json does not exist" ∧
    get_previous_text (fun _ => none) (fun _ => []) none = .ok [] ∧
    get_previous_text (fun _ => some "x") (fun _ => [(⟨"user", "hi".toList⟩, "hi".toList)]) none
        = .ok [(⟨"user", "hi".toList⟩, "hi".toList)] := by
  refine ⟨?_, ?_, ?_⟩
  · rw [(C8_get_previous_text_cases (fun _ => none) (fun _ => [])).1 "conv.json" rfl]
    rfl
  · exact (C8_get_previous_text_cases (fun _ => none) (fun _ => [])).2.2.1 rfl
  · exact (C8_get_previous_text_cases (fun _ => some "x")
      (fun _ => [(⟨"user", "hi".toList⟩, "hi".toList)])).2.2.2 "x" rfl

/-- Claim C9: the signal handler writes nothing from the state `run_chat`
sets up before the loop (`edited = false`); every completed loop turn sets
`edited`; and whenever `edited` holds the handler writes the full
in-memory conversation snapshot to the explicit path if given, else the
fixed fallback path. -/
theorem C9_save_only_when_edited (redact_user : List String → Str → Payload × Str)
    (completion : List ChatMessage → ChatMessage)
    (redact : List String → Str → RedactOut) (rep : Str → String)
    (user_rules gpt_rules : List String) (path : Option String) :
    (∀ previous, term_handler path (run_chat_init previous) = none) ∧
    (∀ st user_content,
      (run_chat_turn redact_user completion redact rep user_rules gpt_rules
        st user_content).edited = true) ∧
    (∀ st, st.edited = true →
      term_handler path st = some (path.getD default_file, st.previous)) := by
  refine ⟨fun _ => rfl, fun _ _ => rfl, fun st h => ?_⟩
  simp [term_handler, h]

/-- Claim C9 witness: with no turn completed the handler writes nothing;
after one completed turn it writes the two appended entries to the
explicit path. -/
theorem C9_save_only_when_edited_witness :
    term_handler (some "/home/me/conv.json") (run_chat_init []) = none ∧
    term_handler (some "/home/me/conv.json")
        (run_chat_turn (fun _ _ => ([], "hi".toList)) (fun _ => ⟨"assistant", "ok".toList⟩)
          (fun _ _ => ⟨[], []⟩) (fun _ => "benign") [] [] (run_chat_init []) "hi".toList)
      = some ("/home/me/conv.json",
          [(⟨"user", "hi".toList⟩, "hi".toList), (⟨"assistant", "ok".toList⟩, "ok".toList)]) := by
  have h := C9_save_only_when_edited (fun _ _ => ([], "hi".toList))
    (fun _ => ⟨"assistant", "ok".toList⟩) (fun _ _ => ⟨[], []⟩) (fun _ => "benign")
    [] [] (some "/home/me/conv.json")
  refine ⟨h.1 [], ?_⟩
  rw [h.2.2 _ (h.2.1 (run_chat_init []) "hi".toList)]
  rfl

/-- Claim C10: in both front ends, the user entry appended to the
conversation stores the redacted user text as both message content and
annotated text; the assistant message comes from the completion request
built from the prior messages plus the redacted user text; and the
appended conversation (and the whole terminal-loop state) depends on the
raw user input only through its redaction, so the raw pre-redaction input
is never stored in the conversation and never sent to the completion
service. -/
theorem C10_only_redacted_stored_and_sent
    (redact_user : List String → Str → Payload × Str)
    (completion : List ChatMessage → ChatMessage)
    (redact : List String → Str → RedactOut) (rep : Str → String)
    (user_rules gpt_rules : List String) (previous : Conversation)
    (raw_input raw_input' : Str) (ed : Bool)
    (h : (redact_user user_rules raw_input).2 = (redact_user user_rules raw_input').2) :
    (chat redact_user completion redact rep user_rules gpt_rules previous raw_input).previous
        = previous ++
          [(⟨"user", (redact_user user_rules raw_input).2⟩,
              (redact_user user_rules raw_input).2),
            ((send_chatgpt_message completion redact rep gpt_rules
                (redact_user user_rules raw_input).2 previous).1,
              (send_chatgpt_message completion redact rep gpt_rules
                (redact_user user_rules raw_input).2 previous).2.1)] ∧
    (chat redact_user completion redact rep user_rules gpt_rules
        previous raw_input).chat_gpt_message
        = ⟨"assistant",
            (completion (build_request previous (redact_user user_rules raw_input).2)).content⟩ ∧
    (chat redact_user completion redact rep user_rules gpt_rules previous raw_input).previous
        = (chat redact_user completion redact rep user_rules gpt_rules
            previous raw_input').previous ∧
    run_chat_turn redact_user completion redact rep user_rules gpt_rules
        ⟨previous, ed⟩ raw_input
      = run_chat_turn redact_user completion redact rep user_rules gpt_rules
          ⟨previous, ed⟩ raw_input' ∧
    (run_chat_turn redact_user completion redact rep user_rules gpt_rules
        ⟨previous, ed⟩ raw_input).previous
        = previous ++
          [(⟨"user", (redact_user user_rules raw_input).2⟩,
              (redact_user user_rules raw_input).2),
            ((send_chatgpt_message completion redact rep gpt_rules
                (redact_user user_rules raw_input).2 previous).1,
              (send_chatgpt_message completion redact rep gpt_rules
                (redact_user user_rules raw_input).2 previous).2.1)] := by
  refine ⟨rfl, rfl, ?_, ?_, rfl⟩
  · simp only [chat]
    rw [h]
  · simp only [run_chat_turn]
    rw [h]

/-- Claim C10 witness: two different raw inputs with the same redaction
yield the same stored conversation and the same terminal-loop state. -/
theorem C10_only_redacted_stored_and_sent_witness :
    (chat (fun _ _ => ([], "CLEAN".toList)) (fun _ => ⟨"assistant", "ok".toList⟩)
        (fun _ _ => ⟨[], []⟩) (fun _ => "benign") [] [] [] "ssn 123-45-6789".toList).previous
      = (chat (fun _ _ => ([], "CLEAN".toList)) (fun _ => ⟨"assistant", "ok".toList⟩)
          (fun _ _ => ⟨[], []⟩) (fun _ => "benign") [] [] [] "other".toList).previous ∧
    run_chat_turn (fun _ _ => ([], "CLEAN".toList)) (fun _ => ⟨"assistant", "ok".toList⟩)
        (fun _ _ => ⟨[], []⟩) (fun _ => "benign") [] [] ⟨[], false⟩ "ssn 123-45-6789".toList
      = run_chat_turn (fun _ _ => ([], "CLEAN".toList)) (fun _ => ⟨"assistant", "ok".toList⟩)
          (fun _ _ => ⟨[], []⟩) (fun _ => "benign") [] [] ⟨[], false⟩ "other".toList := by
  have h := C10_only_redacted_stored_and_sent (fun _ _ => ([], "CLEAN".toList))
    (fun _ => ⟨"assistant", "ok".toList⟩) (fun _ _ => ⟨[], []⟩) (fun _ => "benign")
    [] [] [] "ssn 123-45-6789".toList "other".toList false rfl
  exact ⟨h.2.2.1, h.2.2.2.1⟩

/-- Applying the earlier span first and the later span second, with the
earlier replacement preserving length, yields the canonical spliced text. -/
lemma replace_word_left_then_right (T R1 R2 : Str) (s1 e1 s2 e2 : Nat)
    (h1 : s1 ≤ e1) (h2 : e1 ≤ s2) (h3 : s2 ≤ e2) (h4 : e2 ≤ T.length)
    (hR1 : R1.length = e1 - s1) :
    replace_word (replace_word T R1 s1 e1) R2 s2 e2
      = T.take s1 ++ R1 ++ (T.drop e1).take (s2 - e1) ++ R2 ++ T.drop e2 := by
  have hs1T : s1 ≤ T.length := h1.trans (h2.trans (h3.trans h4))
  have h12 : e1 ≤ e2 := h2.trans h3
  have lA : (T.take s1 ++ R1).length = e1 := by
    rw [List.length_append, List.length_take_of_le hs1T, hR1, Nat.add_sub_cancel' h1]
  have hA_le_s2 : (T.take s1 ++ R1).length ≤ s2 := by rw [lA]; exact h2
  have hA_le_e2 : (T.take s1 ++ R1).length ≤ e2 := by rw [lA]; exact h12
  simp only [replace_word]
  rw [List.take_append_eq_append_take, List.drop_append_eq_append_drop,
      List.take_of_length_le hA_le_s2, List.drop_eq_nil_of_le hA_le_e2, lA,
      List.drop_drop, Nat.add_sub_cancel' h12]
  simp [List.append_assoc]

/-- Applying the later span first and the earlier span second yields the
same canonical spliced text (no length condition needed on `R2`). -/
lemma replace_word_right_then_left (T R1 R2 : Str) (s1 e1 s2 e2 : Nat)
    (h1 : s1 ≤ e1) (h2 : e1 ≤ s2) (h3 : s2 ≤ e2) (h4 : e2 ≤ T.length) :
    replace_word (replace_word T R2 s2 e2) R1 s1 e1
      = T.take s1 ++ R1 ++ (T.drop e1).take (s2 - e1) ++ R2 ++ T.drop e2 := by
  have hs2T : s2 ≤ T.length := h3.trans h4
  have hs1s2 : s1 ≤ s2 := h1.trans h2
  have l2 : (T.take s2).length = s2 := List.length_take_of_le hs2T
  have hz1 : s1 - (T.take s2).length = 0 := by
    rw [l2]; exact Nat.sub_eq_zero_of_le hs1s2
  have hz2 : s1 - (T.take s2 ++ R2).length = 0 := by
    rw [List.length_append, l2]
    exact Nat.sub_eq_zero_of_le (hs1s2.trans (Nat.le_add_right _ _))
  have hz3 : e1 - (T.take s2).length = 0 := by
    rw [l2]; exact Nat.sub_eq_zero_of_le h2
  have hz4 : e1 - (T.take s2 ++ R2).length = 0 := by
    rw [List.length_append, l2]
    exact Nat.sub_eq_zero_of_le (h2.trans (Nat.le_add_right _ _))
  simp only [replace_word]
  rw [List.take_append_eq_append_take, List.take_append_eq_append_take, hz1, hz2,
      List.drop_append_eq_append_drop, List.drop_append_eq_append_drop, hz3, hz4,
      List.take_take, min_eq_left hs1s2, List.drop_take]
  simp [List.append_assoc]

/-- Claim C3 (counterexample): `replace_word` applied sequentially to two
non-overlapping spans with offsets computed against the original text is
order-dependent — replacing span `[0,2)` of `"abcdef"` by `"XYZ"` and span
`[4,6)` by `"W"` gives `"XYZcWf"` in one order and `"XYZcdW"` in the
other. -/
theorem C3_counterexample_order_matters :
    replace_word (replace_word "abcdef".toList "XYZ".toList 0 2) "W".toList 4 6
      ≠ replace_word (replace_word "abcdef".toList "W".toList 4 6) "XYZ".toList 0 2 := by
  decide

/-- Claim C3 (amended): `replace_word` returns exactly
`T[:s] ++ R ++ T[e:]` for all inputs; and for two non-overlapping spans
`[s1,e1)`, `[s2,e2)` with `s1 ≤ e1 ≤ s2 ≤ e2 ≤ |T|` and offsets computed
against the original `T`, applying the two replacements sequentially in
either order yields the same final text **provided the earlier span's
replacement has the same length as the span it replaces**. -/
theorem C3_amended_splice_and_commute (T R R1 R2 : Str) (s e s1 e1 s2 e2 : Nat)
    (h1 : s1 ≤ e1) (h2 : e1 ≤ s2) (h3 : s2 ≤ e2) (h4 : e2 ≤ T.length)
    (hR1 : R1.length = e1 - s1) :
    replace_word T R s e = T.take s ++ R ++ T.drop e ∧
    replace_word (replace_word T R1 s1 e1) R2 s2 e2
      = replace_word (replace_word T R2 s2 e2) R1 s1 e1 := by
  refine ⟨rfl, ?_⟩
  rw [replace_word_left_then_right T R1 R2 s1 e1 s2 e2 h1 h2 h3 h4 hR1,
      replace_word_right_then_left T R1 R2 s1 e1 s2 e2 h1 h2 h3 h4]

/-- Claim C3 witness: the splice shape at a concrete input, and order
insensitivity for a concrete length-preserving earlier replacement. -/
theorem C3_amended_splice_and_commute_witness :
    replace_word "abcdef".toList "Z".toList 1 2
        = ("abcdef".toList : Str).take 1 ++ "Z".toList ++ ("abcdef".toList : Str).drop 2 ∧
    replace_word (replace_word "abcdef".toList "XY".toList 0 2) "W".toList 4 6
      = replace_word (replace_word "abcdef".toList "W".toList 4 6) "XY".toList 0 2 :=
  C3_amended_splice_and_commute "abcdef".toList "Z".toList "XY".toList "W".toList
    1 2 0 2 4 6 (by decide) (by decide) (by decide) (by decide) (by decide)
